import Mathlib

/-! Verification development for the environment-onboarding CLI
(`src/application/cli.py`).  The remote AWS services the CLI talks to
(CloudFormation, S3, Service Catalog) are modelled as explicit state values;
each CLI function becomes a pure Lean function from the remote state (plus its
arguments) to the new remote state, a trace of the remote calls it issued, and
an outcome.  `sys.exit(1)` is modelled as an `exited`/`error` outcome that
short-circuits the caller, mirroring how it aborts the whole process. -/

/-- Whether the character list `pat` is a prefix of the second list.
Helper for the substring test below. -/
def startsWithList : List Char → List Char → Bool
  | [], _ => true
  | _ :: _, [] => false
  | p :: ps, c :: cs => p == c && startsWithList ps cs

/-- Whether `pat` occurs contiguously anywhere in the second list. -/
def containsList (pat : List Char) : List Char → Bool
  | [] => startsWithList pat []
  | c :: cs => startsWithList pat (c :: cs) || containsList pat cs

/-- Python's substring test `pat in s`, used by the CLI to classify
`ClientError` messages (`cli.py` lines 53 and 101). -/
def strContains (s pat : String) : Bool := containsList pat.data s.data

/-- Python's `s.endswith(suffix)`; models the `*.yaml` glob filter. -/
def strEndsWith (s suffix : String) : Bool :=
  startsWithList suffix.data.reverse s.data.reverse

/-- Lookup in an association list keyed by strings; models a remote registry
keyed by name. -/
def alistLookup {α : Type} : List (String × α) → String → Option α
  | [], _ => none
  | (k, v) :: rest, key => if k = key then some v else alistLookup rest key

/-- Insert-or-replace in an association list keyed by strings. -/
def alistSet {α : Type} : List (String × α) → String → α → List (String × α)
  | [], key, v => [(key, v)]
  | (k, v0) :: rest, key, v =>
      if k = key then (k, v) :: rest else (k, v0) :: alistSet rest key v

/-- Lifecycle status of a CloudFormation stack (absence is modelled by the
stack not being present in the remote registry). -/
inductive StackStatus
  | CREATE_IN_PROGRESS
  | UPDATE_IN_PROGRESS
  | AVAILABLE
  | FAILED
deriving DecidableEq, Repr

/-- One CloudFormation parameter, as built in `cli.py` lines 61-67. -/
structure CFParameter where
  parameterKey : String
  parameterValue : String
deriving DecidableEq, Repr

/-- A stack held by the remote CloudFormation service. -/
structure CFStack where
  templateBody : String
  parameters : List CFParameter
  tags : List (String × String)
  status : StackStatus
deriving DecidableEq, Repr

/-- The remote CloudFormation service state.  `describeFault` and
`mutateFault` inject a `ClientError` (with the given message) into the next
describe call resp. the next create/update call, so that the CLI's error
handling can be examined for every possible remote failure message. -/
structure CFRemote where
  stackList : List (String × CFStack)
  describeFault : Option String
  mutateFault : Option String
deriving DecidableEq, Repr

/-- The message of the `ClientError` raised by `describe_stacks` /
`update_stack` on an absent stack. -/
def doesNotExistMsg (name : String) : String :=
  "An error occurred (ValidationError): Stack with id " ++ name ++
    (" does not exist")

/-- The substring the CLI uses to recognise absence (`cli.py` line 53). -/
def doesNotExistPhrase : String := "does not exist"

/-- The message of the `ClientError` raised by `update_stack` when the
template and parameters are unchanged. -/
def noUpdatesMsg : String :=
  "An error occurred (ValidationError) when calling the UpdateStack " ++
    "operation: No updates are to be performed."

/-- The substring the CLI uses to recognise the no-op update case
(`cli.py` line 101). -/
def noUpdatesPhrase : String := "No updates are to be performed"

/-- Message raised by `create_stack` on an already existing stack. -/
def alreadyExistsMsg (name : String) : String :=
  "An error occurred (AlreadyExistsException): Stack " ++ name ++
    (" already exists")

/-- Response of `describe_stacks(StackName=name)`: `none` is success, `some
msg` is a `ClientError` with message `msg`. -/
def describeStacksResp (remote : CFRemote) (name : String) : Option String :=
  match remote.describeFault with
  | some m => some m
  | none =>
      match alistLookup remote.stackList name with
      | some _ => none
      | none => some (doesNotExistMsg name)

/-- Effect and response of `update_stack`: a fault or an absent stack or an
unchanged template/parameter pair yields a `ClientError`, otherwise the stack
is replaced and enters `UPDATE_IN_PROGRESS`. -/
def updateStackCall (remote : CFRemote) (name tmpl : String)
    (ps : List CFParameter) (tags : List (String × String)) :
    CFRemote × Option String :=
  match remote.mutateFault with
  | some m => (remote, some m)
  | none =>
      match alistLookup remote.stackList name with
      | none => (remote, some (doesNotExistMsg name))
      | some st =>
          if st.templateBody = tmpl ∧ st.parameters = ps then
            (remote, some noUpdatesMsg)
          else
            let st1 : CFStack := ⟨tmpl, ps, tags, .UPDATE_IN_PROGRESS⟩
            ({ remote with stackList := alistSet remote.stackList name st1 },
             none)

/-- Effect and response of `create_stack`: a fault or an existing stack
yields a `ClientError`, otherwise the stack is registered in
`CREATE_IN_PROGRESS`. -/
def createStackCall (remote : CFRemote) (name tmpl : String)
    (ps : List CFParameter) (tags : List (String × String)) :
    CFRemote × Option String :=
  match remote.mutateFault with
  | some m => (remote, some m)
  | none =>
      match alistLookup remote.stackList name with
      | some _ => (remote, some (alreadyExistsMsg name))
      | none =>
          let st1 : CFStack := ⟨tmpl, ps, tags, .CREATE_IN_PROGRESS⟩
          ({ remote with stackList := alistSet remote.stackList name st1 },
           none)

/-- Effect of `waiter.wait(StackName=name)`: blocks until the stack is
terminal; in this model the in-progress operation completes successfully and
the stack becomes `AVAILABLE`. -/
def waiterWait (remote : CFRemote) (name : String) : CFRemote :=
  match alistLookup remote.stackList name with
  | none => remote
  | some st =>
      let st1 : CFStack := { st with status := .AVAILABLE }
      { remote with stackList := alistSet remote.stackList name st1 }

/-- One remote CloudFormation call issued by the CLI, recorded in order. -/
inductive CFCall
  | describeStacks (stackName : String)
  | createStack (stackName templateBody : String) (ps : List CFParameter)
      (tags : List (String × String))
  | updateStack (stackName templateBody : String) (ps : List CFParameter)
      (tags : List (String × String))
  | waitStackCreateComplete (stackName : String)
  | waitStackUpdateComplete (stackName : String)
deriving DecidableEq, Repr

/-- Outcome of `deploy_cloudformation_stack`: a normal return (with
`noUpdates = true` exactly on the recognised "No updates are to be performed"
path, where the CLI merely echoes "No updates needed") or `exited msg`, which
models `sys.exit(1)` aborting the whole process, so no later phase of the
calling command runs. -/
inductive DeployResult
  | completed (noUpdates : Bool)
  | exited (msg : String)
deriving DecidableEq, Repr

/-- The fixed tag pair attached to every create and update call
(`cli.py` lines 77-80 and 88-91). -/
def fixedTags : List (String × String) :=
  [("ManagedBy", "Administrator"), ("Environment", "Development")]

/-- Conversion of the parameter dictionary into the CloudFormation parameter
list (`cli.py` lines 61-67); Python dictionaries preserve insertion order. -/
def toCFParameters (ps : List (String × String)) : List CFParameter :=
  ps.map (fun kv => ⟨kv.1, kv.2⟩)

/-- The body of the `try` block of `cli.py` lines 70-105: issue the chosen
mutating call, then wait; a `ClientError` whose message contains the no-op
phrase is treated as success, any other `ClientError` exits the process. -/
def deployMutatePhase (remote : CFRemote) (stackName templateBody : String)
    (cfParameters : List CFParameter) (stackExists : Bool) :
    CFRemote × List CFCall × DeployResult :=
  let mutateCall :=
    if stackExists then
      CFCall.updateStack stackName templateBody cfParameters fixedTags
    else
      CFCall.createStack stackName templateBody cfParameters fixedTags
  match (if stackExists then
          updateStackCall remote stackName templateBody cfParameters fixedTags
         else
          createStackCall remote stackName templateBody cfParameters fixedTags) with
  | (remote1, some m) =>
      if strContains m noUpdatesPhrase then
        (remote1, [mutateCall], .completed true)
      else
        (remote1, [mutateCall], .exited m)
  | (remote1, none) =>
      let waitCall :=
        if stackExists then CFCall.waitStackUpdateComplete stackName
        else CFCall.waitStackCreateComplete stackName
      (waiterWait remote1 stackName, [mutateCall, waitCall], .completed false)

/-- Embedding of `deploy_cloudformation_stack` (`cli.py` lines 39-105).  The
template file's content is passed directly as `templateBody`.  First the
current stack is described: a `ClientError` whose message does not contain
"does not exist" exits the process; absence selects the create path, presence
the update path. -/
def deploy_cloudformation_stack (remote : CFRemote)
    (templateBody stackName : String) (parameters : List (String × String)) :
    CFRemote × List CFCall × DeployResult :=
  let dCall := CFCall.describeStacks stackName
  match describeStacksResp remote stackName with
  | some m =>
      if strContains m doesNotExistPhrase then
        let out := deployMutatePhase remote stackName templateBody
          (toCFParameters parameters) false
        (out.1, dCall :: out.2.1, out.2.2)
      else
        (remote, [dCall], .exited m)
  | none =>
      let out := deployMutatePhase remote stackName templateBody
        (toCFParameters parameters) true
      (out.1, dCall :: out.2.1, out.2.2)

/-- A bucket held by the remote S3 service, with the two properties the CLI
turns on after creation. -/
structure S3Bucket where
  versioningEnabled : Bool
  encryptionEnabled : Bool
deriving DecidableEq, Repr

/-- The remote S3 service state.  `headFault` injects an HTTP error code into
the next `head_bucket` call (overriding the natural 404-on-absent response);
`createFault` injects a `ClientError` into the create/versioning/encryption
sequence. -/
structure S3Remote where
  buckets : List (String × S3Bucket)
  headFault : Option Nat
  createFault : Option String
deriving DecidableEq, Repr

/-- Response of `head_bucket(Bucket=name)`: `none` is success, `some code` a
`ClientError` with that HTTP code; an absent bucket answers 404. -/
def headBucketResp (remote : S3Remote) (name : String) : Option Nat :=
  match remote.headFault with
  | some code => some code
  | none =>
      match alistLookup remote.buckets name with
      | some _ => none
      | none => some 404

/-- Embedding of `check_s3_bucket_exists` (`cli.py` lines 108-121): success
means the bucket exists, error code 404 means it does not, and any other
error code exits the process (modelled by `Except.error`). -/
def check_s3_bucket_exists (remote : S3Remote) (bucket_name : String) :
    Except String Bool :=
  match headBucketResp remote bucket_name with
  | none => .ok true
  | some code =>
      if code = 404 then .ok false
      else .error ("Error checking bucket: " ++ toString code)

/-- The `create_bucket` request shape built in `cli.py` lines 132-138. -/
structure CreateBucketRequest where
  bucket : String
  createBucketConfiguration : Option String
deriving DecidableEq, Repr

/-- How `create_s3_bucket` builds its `create_bucket` request (`cli.py` lines
132-138): for region `us-east-1` the `CreateBucketConfiguration` with its
`LocationConstraint` is omitted, for every other region it is supplied. -/
def createBucketRequest (bucket_name region : String) : CreateBucketRequest :=
  if region = "us-east-1" then
    { bucket := bucket_name, createBucketConfiguration := none }
  else
    { bucket := bucket_name, createBucketConfiguration := some region }

/-- One remote S3 call issued by the CLI, recorded in order. -/
inductive S3Call
  | headBucket (bucket : String)
  | createBucket (bucket : String) (locationConstraint : Option String)
  | putBucketVersioning (bucket : String)
  | putBucketEncryption (bucket : String)
deriving DecidableEq, Repr

/-- Embedding of `create_s3_bucket` (`cli.py` lines 124-159): creation, then
versioning, then encryption; a `ClientError` anywhere in the `try` block
(modelled by `createFault`) exits the process. -/
def create_s3_bucket (remote : S3Remote) (bucket_name region : String) :
    S3Remote × List S3Call × Option String :=
  let req := createBucketRequest bucket_name region
  match remote.createFault with
  | some m =>
      (remote, [S3Call.createBucket bucket_name req.createBucketConfiguration],
       some ("Error creating bucket: " ++ m))
  | none =>
      let bkt : S3Bucket := ⟨true, true⟩
      ({ remote with buckets := alistSet remote.buckets bucket_name bkt },
       [S3Call.createBucket bucket_name req.createBucketConfiguration,
        S3Call.putBucketVersioning bucket_name,
        S3Call.putBucketEncryption bucket_name],
       none)

/-- Embedding of the ensure-store step of `admin_deploy` (`cli.py` lines
255-260): probe existence, create only when the probe reported absence; a
probe failure other than 404 exits the process before any creation. -/
def ensureStore (remote : S3Remote) (bucket_name region : String) :
    S3Remote × List S3Call × Option String :=
  match check_s3_bucket_exists remote bucket_name with
  | .error m => (remote, [S3Call.headBucket bucket_name], some m)
  | .ok true => (remote, [S3Call.headBucket bucket_name], none)
  | .ok false =>
      let out := create_s3_bucket remote bucket_name region
      (out.1, S3Call.headBucket bucket_name :: out.2.1, out.2.2)

/-- Number of `create_bucket` calls in an S3 call trace. -/
def countCreates (calls : List S3Call) : Nat :=
  calls.countP (fun c =>
    match c with
    | S3Call.createBucket _ _ => true
    | _ => false)

/-- The local infrastructure directory tree seen by
`upload_templates_to_s3`: which subdirectories of the infrastructure root
exist (`[]` stands for the root itself) and which files exist, each file
given as its directory's component list paired with its base name. -/
structure InfraFS where
  dirs : List (List String)
  files : List (List String × String)
deriving DecidableEq, Repr

/-- `directory.glob("*.yaml")` in the model: the names of the `.yaml` files
directly inside `dir`. -/
def globYaml (fs : InfraFS) (dir : List String) : List String :=
  (fs.files.filter
    (fun f => decide (f.1 = dir) && strEndsWith f.2 (".yaml"))).map
    (fun f => f.2)

/-- The three directories the upload loop walks (`cli.py` lines 170-174):
the infrastructure root, `initial` and `template`. -/
def uploadDirectories : List (List String) :=
  [[], ["initial"], ["template"]]

/-- The loop of `cli.py` lines 179-190: every `.yaml` file of each existing
listed directory is uploaded under the key `infrastructure/<base name>`.
Result: pairs of the file (directory components, base name) and its S3
key. -/
def yamlUploads (fs : InfraFS) : List ((List String × String) × String) :=
  (uploadDirectories.filter (fun d => decide (d ∈ fs.dirs))).flatMap
    (fun d => (globYaml fs d).map
      (fun n => ((d, n), ("infrastructure/") ++ n)))

/-- The dev-environment template file path used in `cli.py` line 193. -/
def devEnvTemplateFile : List String × String :=
  (["template"], "dev-environment-template.yaml")

/-- The extra upload of `cli.py` lines 192-201: if
`template/dev-environment-template.yaml` exists it is also uploaded under the
`templates/` prefix. -/
def devEnvTemplateUpload (fs : InfraFS) :
    List ((List String × String) × String) :=
  if devEnvTemplateFile ∈ fs.files then
    [(devEnvTemplateFile, "templates/dev-environment-template.yaml")]
  else []

/-- Embedding of `upload_templates_to_s3` (`cli.py` lines 162-205), reduced
to the uploads it performs: each element pairs the local file with the S3 key
it is uploaded under (in this model every upload succeeds, so the batch never
exits early). -/
def upload_templates_to_s3 (fs : InfraFS) :
    List ((List String × String) × String) :=
  yamlUploads fs ++ devEnvTemplateUpload fs

/-- The key the specification prescribes for a file: its path relative to
the parent of the infrastructure root, i.e. the `infrastructure/` prefix
followed by the file's directory components and base name. -/
def specRelativeKey (f : List String × String) : String :=
  String.intercalate ("/") (("infrastructure") :: (f.1 ++ [f.2]))

/-- Modelled from the spec: the Template Resolver of §4.2 does not exist in
`src/` (only `cli.py` is in the repository), so a template is modelled as the
spec describes it — text interleaved with `Token` placeholders, with no
nested or recursive tokens.  A literal chunk carries plain text; a
placeholder chunk carries the token between the double-brace markers. -/
inductive TemplateChunk
  | lit (text : String)
  | placeholder (token : String)
deriving DecidableEq, Repr

/-- Modelled from the spec: `resolve(templateText, bindings)` substitutes
every placeholder by its binding (literal replacement, order-independent) and
fails with `UnresolvedPlaceholder` as soon as a token has no binding. -/
def resolve : List TemplateChunk → List (String × String) → Except String String
  | [], _ => .ok ""
  | TemplateChunk.lit s :: rest, b =>
      match resolve rest b with
      | .ok t => .ok (s ++ t)
      | .error e => .error e
  | TemplateChunk.placeholder tok :: rest, b =>
      match alistLookup b tok with
      | none => .error "UnresolvedPlaceholder"
      | some v =>
          match resolve rest b with
          | .ok t => .ok (v ++ t)
          | .error e => .error e

/-- Whether an `Except` computation succeeded. -/
def exceptOk {ε α : Type} : Except ε α → Bool
  | Except.ok _ => true
  | Except.error _ => false

/-- The distinct placeholder tokens of a template, in order of last
occurrence. -/
def placeholderTokens : List TemplateChunk → List String
  | [] => []
  | TemplateChunk.lit _ :: rest => placeholderTokens rest
  | TemplateChunk.placeholder tok :: rest =>
      let ts := placeholderTokens rest
      if tok ∈ ts then ts else tok :: ts

/-- The opening-brace character of the placeholder marker. -/
def lbraceChar : Char := Char.ofNat 123

/-- Whether a string contains an opening brace at all. -/
def hasBrace (s : String) : Bool := s.data.contains lbraceChar

/-- The two-character placeholder opening marker. -/
def openMarker : String := String.mk [lbraceChar, lbraceChar]

/-- A provisioned product held by the remote Service Catalog, as read by the
CLI via `describe_provisioned_product(Name=...)`.  `id` is `Option` because
the CLI defensively checks `ProvisionedProductDetail.get('Id')` for a falsy
value. -/
structure SCProduct where
  id : Option String
  status : String
  statusMessage : Option String
deriving DecidableEq, Repr

/-- The remote Service Catalog state: provisioned products keyed by name. -/
structure SCRemote where
  provisionedProducts : List (String × SCProduct)
deriving DecidableEq, Repr

/-- One remote Service Catalog call issued by the CLI, recorded in order;
`sleep` would record a delay between polls (the CLI never issues one). -/
inductive SCCall
  | describeProvisionedProduct (name : String)
  | terminateProvisionedProduct (productId : String)
  | sleep (seconds : Nat)
deriving DecidableEq, Repr

/-- Outcome of `developer_status`: the status string the single query
reported, or a process exit on a `ClientError` (e.g. unknown product
name). -/
inductive StatusResult
  | reported (status : String)
  | exited (msg : String)
deriving DecidableEq, Repr

/-- Embedding of `developer_status` (`cli.py` lines 446-479, after
credential/region resolution): one `describe_provisioned_product` call whose
`Status` field is echoed; there is no loop and no sleep, whatever the status
is. -/
def developer_status (remote : SCRemote) (name : String) :
    List SCCall × StatusResult :=
  match alistLookup remote.provisionedProducts name with
  | none =>
      ([SCCall.describeProvisionedProduct name],
       StatusResult.exited ("Error: provisioned product " ++ name ++
         (" not found")))
  | some p =>
      ([SCCall.describeProvisionedProduct name], StatusResult.reported p.status)

/-- Outcome of `developer_terminate`. -/
inductive TermResult
  | cancelled
  | initiated
  | exited (msg : String)
deriving DecidableEq, Repr

/-- Effect of `terminate_provisioned_product` on the remote state: the
product starts changing towards removal. -/
def terminateProduct (remote : SCRemote) (pid : String) : SCRemote :=
  let updated := remote.provisionedProducts.map
    (fun np =>
      if np.2.id = some pid then
        (np.1, { np.2 with status := "UNDER_CHANGE" })
      else np)
  { remote with provisionedProducts := updated }

/-- Python truthiness of the optional product id (`if not product_id`). -/
def falsyId (id : Option String) : Bool :=
  match id with
  | none => true
  | some s => s.isEmpty

/-- Embedding of `developer_terminate` (`cli.py` lines 568-611, after
credential/region resolution).  `confirmAnswer` is the reply the user would
give to the confirmation prompt; the prompt is only shown when `force` is
false, and a declined prompt returns before any terminate call. -/
def developer_terminate (remote : SCRemote) (name : String)
    (force confirmAnswer : Bool) : SCRemote × List SCCall × TermResult :=
  match alistLookup remote.provisionedProducts name with
  | none =>
      (remote, [SCCall.describeProvisionedProduct name],
       TermResult.exited ("Error: provisioned product " ++ name ++
         (" not found")))
  | some p =>
      if falsyId p.id then
        (remote, [SCCall.describeProvisionedProduct name],
         TermResult.exited ("Could not find provisioned product with name: "
           ++ name))
      else
        if !force && !confirmAnswer then
          (remote, [SCCall.describeProvisionedProduct name],
           TermResult.cancelled)
        else
          let pid := (p.id).getD ""
          (terminateProduct remote pid,
           [SCCall.describeProvisionedProduct name,
            SCCall.terminateProvisionedProduct pid],
           TermResult.initiated)

/-- Embedding of `get_aws_region` (`cli.py` lines 29-36): the region from
the session configuration, with Python-falsy values (absent or empty)
replaced by the default `us-east-1`. -/
def get_aws_region (sessionRegionName : Option String) : String :=
  match sessionRegionName with
  | none => "us-east-1"
  | some r => if r.isEmpty then "us-east-1" else r

/-- The shared `if not region: region = get_aws_region()` step of the
commands whose `--region` flag is optional (`admin deploy`, `developer
status`, `developer outputs`, `developer list`, `developer terminate`). -/
def resolveRegionOption (flagValue sessionRegionName : Option String) :
    String :=
  match flagValue with
  | none => get_aws_region sessionRegionName
  | some r => if r.isEmpty then get_aws_region sessionRegionName else r

/-- Appending strings appends their character data. -/
theorem str_data_append (a b : String) : (a ++ b).data = a.data ++ b.data := rfl

/-- A list is a prefix of itself followed by anything. -/
theorem startsWithList_self_append (pat rest : List Char) :
    startsWithList pat (pat ++ rest) = true := by
  induction pat with
  | nil => rfl
  | cons p ps ih => simp [startsWithList, ih]

/-- A pattern occurring in a list occurs in any extension on the left. -/
theorem containsList_append_left (pat l1 l2 : List Char)
    (h : containsList pat l2 = true) : containsList pat (l1 ++ l2) = true := by
  induction l1 with
  | nil => simpa using h
  | cons c cs ih => simp [containsList, ih]

/-- A substring of the right part is a substring of the whole. -/
theorem strContains_append_right (s1 s2 pat : String)
    (h : strContains s2 pat = true) : strContains (s1 ++ s2) pat = true := by
  unfold strContains at h ⊢
  rw [str_data_append]
  exact containsList_append_left _ _ _ h

/-- The absent-stack error message always contains the phrase the CLI tests
for. -/
theorem strContains_doesNotExistMsg (name : String) :
    strContains (doesNotExistMsg name) doesNotExistPhrase = true := by
  unfold doesNotExistMsg
  exact strContains_append_right _ _ _ (by decide)

/-- The no-op update error message contains the phrase the CLI tests for. -/
theorem strContains_noUpdatesMsg :
    strContains noUpdatesMsg noUpdatesPhrase = true := by decide

/-- Looking up the key just set yields the value just set. -/
theorem alistLookup_alistSet_self {α : Type} (l : List (String × α))
    (k : String) (v : α) : alistLookup (alistSet l k v) k = some v := by
  induction l with
  | nil => simp [alistSet, alistLookup]
  | cons kv rest ih =>
      obtain ⟨k0, v0⟩ := kv
      by_cases h : k0 = k
      · simp [alistSet, alistLookup, h]
      · simp [alistSet, alistLookup, h, ih]

/-- C3: re-running deploy on an already-AVAILABLE stack with the identical
template and identical parameters does not error and leaves the stack
AVAILABLE (the update call reports "No updates are to be performed", which
the CLI treats as a no-op success); and end to end, deploying an absent
stack issues a create, waits to AVAILABLE, and a second identical deploy
resolves as a no-op with final status AVAILABLE both times. -/
theorem deploy_idempotent_on_available (name tmpl : String)
    (params tags : List (String × String)) :
    deploy_cloudformation_stack
        ⟨[(name, ⟨tmpl, toCFParameters params, tags, StackStatus.AVAILABLE⟩)],
         none, none⟩ tmpl name params =
      (⟨[(name, ⟨tmpl, toCFParameters params, tags, StackStatus.AVAILABLE⟩)],
        none, none⟩,
       [CFCall.describeStacks name,
        CFCall.updateStack name tmpl (toCFParameters params) fixedTags],
       DeployResult.completed true)
    ∧ deploy_cloudformation_stack ⟨[], none, none⟩ tmpl name params =
      (⟨[(name, ⟨tmpl, toCFParameters params, fixedTags,
           StackStatus.AVAILABLE⟩)], none, none⟩,
       [CFCall.describeStacks name,
        CFCall.createStack name tmpl (toCFParameters params) fixedTags,
        CFCall.waitStackCreateComplete name],
       DeployResult.completed false) := by
  constructor
  · simp [deploy_cloudformation_stack, describeStacksResp, alistLookup,
      deployMutatePhase, updateStackCall, strContains_noUpdatesMsg]
  · simp [deploy_cloudformation_stack, describeStacksResp, alistLookup,
      strContains_doesNotExistMsg, deployMutatePhase, createStackCall,
      alistSet, waiterWait]

/-- C1: when the mutating call of deploy fails, a message containing "No
updates are to be performed" makes deploy complete as a no-op success with
the remote state (hence an AVAILABLE stack) untouched, while any other
failure message makes deploy exit the process, aborting everything after
it. -/
theorem deploy_mutate_failure_classification (remote : CFRemote)
    (tmpl name : String) (params : List (String × String)) (msg : String)
    (hd : remote.describeFault = none) (hm : remote.mutateFault = some msg) :
    (strContains msg noUpdatesPhrase = true →
        (deploy_cloudformation_stack remote tmpl name params).2.2 =
          DeployResult.completed true
        ∧ (deploy_cloudformation_stack remote tmpl name params).1 = remote)
    ∧ (strContains msg noUpdatesPhrase = false →
        (deploy_cloudformation_stack remote tmpl name params).2.2 =
          DeployResult.exited msg) := by
  constructor
  · intro hc
    cases hlk : alistLookup remote.stackList name with
    | some st =>
        simp [deploy_cloudformation_stack, describeStacksResp, hd, hlk,
          deployMutatePhase, updateStackCall, hm, hc]
    | none =>
        simp [deploy_cloudformation_stack, describeStacksResp, hd, hlk,
          deployMutatePhase, createStackCall, hm, hc,
          strContains_doesNotExistMsg]
  · intro hc
    cases hlk : alistLookup remote.stackList name with
    | some st =>
        simp [deploy_cloudformation_stack, describeStacksResp, hd, hlk,
          deployMutatePhase, updateStackCall, hm, hc]
    | none =>
        simp [deploy_cloudformation_stack, describeStacksResp, hd, hlk,
          deployMutatePhase, createStackCall, hm, hc,
          strContains_doesNotExistMsg]

/-- Witness for C1 at a concrete remote and concrete failure messages. -/
theorem deploy_mutate_failure_classification_witness :
    (deploy_cloudformation_stack
        ⟨[], none, some noUpdatesMsg⟩ ("T") ("S") []).2.2 =
      DeployResult.completed true
    ∧ (deploy_cloudformation_stack
        ⟨[], none, some ("AccessDenied")⟩ ("T") ("S") []).2.2 =
      DeployResult.exited ("AccessDenied") :=
  ⟨((deploy_mutate_failure_classification ⟨[], none, some noUpdatesMsg⟩
      ("T") ("S") [] noUpdatesMsg rfl rfl).1 strContains_noUpdatesMsg).1,
   (deploy_mutate_failure_classification ⟨[], none, some ("AccessDenied")⟩
      ("T") ("S") [] ("AccessDenied") rfl rfl).2 (by decide)⟩

/-- C5: deploy first describes the stack by name; a describe failure whose
message does not indicate absence exits immediately after the single
describe call with no mutation; natural absence selects create, an existing
stack selects update; and both mutating calls carry the fixed
ManagedBy/Environment tag pair (the created stack ends AVAILABLE with those
tags). -/
theorem deploy_describe_branching_and_tags :
    (∀ (remote : CFRemote) (tmpl name : String)
        (params : List (String × String)) (msg : String),
        remote.describeFault = some msg →
        strContains msg doesNotExistPhrase = false →
        deploy_cloudformation_stack remote tmpl name params =
          (remote, [CFCall.describeStacks name], DeployResult.exited msg))
    ∧ (∀ (remote : CFRemote) (tmpl name : String)
        (params : List (String × String)),
        remote.describeFault = none → remote.mutateFault = none →
        alistLookup remote.stackList name = none →
        (deploy_cloudformation_stack remote tmpl name params).2.1 =
          [CFCall.describeStacks name,
           CFCall.createStack name tmpl (toCFParameters params) fixedTags,
           CFCall.waitStackCreateComplete name]
        ∧ alistLookup
            (deploy_cloudformation_stack remote tmpl name params).1.stackList
            name =
          some ⟨tmpl, toCFParameters params, fixedTags,
            StackStatus.AVAILABLE⟩)
    ∧ (∀ (remote : CFRemote) (tmpl name : String)
        (params : List (String × String)) (st : CFStack),
        remote.describeFault = none →
        alistLookup remote.stackList name = some st →
        (deploy_cloudformation_stack remote tmpl name params).2.1.take 2 =
          [CFCall.describeStacks name,
           CFCall.updateStack name tmpl (toCFParameters params) fixedTags]) := by
  refine ⟨?_, ?_, ?_⟩
  · intro remote tmpl name params msg hd hc
    simp [deploy_cloudformation_stack, describeStacksResp, hd, hc]
  · intro remote tmpl name params hd hm hlk
    simp [deploy_cloudformation_stack, describeStacksResp, hd, hlk,
      strContains_doesNotExistMsg, deployMutatePhase, createStackCall, hm,
      waiterWait, alistLookup_alistSet_self]
  · intro remote tmpl name params st hd hlk
    simp only [deploy_cloudformation_stack, describeStacksResp, hd, hlk]
    unfold deployMutatePhase
    cases hu : updateStackCall remote name tmpl (toCFParameters params)
        fixedTags with
    | mk r1 resp =>
        cases resp with
        | some m =>
            by_cases hc : strContains m noUpdatesPhrase = true
            · simp [hu, hc]
            · simp [hu, Bool.of_not_eq_true hc]
        | none => simp [hu]

/-- Witness for C5 at concrete remotes: an unrecognised describe failure, a
fresh create, and an update of an existing stack. -/
theorem deploy_describe_branching_and_tags_witness :
    deploy_cloudformation_stack ⟨[], some ("Throttled"), none⟩
        ("T") ("S") [] =
      (⟨[], some ("Throttled"), none⟩, [CFCall.describeStacks ("S")],
       DeployResult.exited ("Throttled"))
    ∧ ((deploy_cloudformation_stack ⟨[], none, none⟩ ("T") ("S") []).2.1 =
        [CFCall.describeStacks ("S"),
         CFCall.createStack ("S") ("T") [] fixedTags,
         CFCall.waitStackCreateComplete ("S")]
       ∧ alistLookup
           (deploy_cloudformation_stack
             ⟨[], none, none⟩ ("T") ("S") []).1.stackList ("S") =
         some ⟨("T"), [], fixedTags, StackStatus.AVAILABLE⟩)
    ∧ (deploy_cloudformation_stack
        ⟨[(("S"), ⟨("U"), [], [], StackStatus.AVAILABLE⟩)], none, none⟩
        ("T") ("S") []).2.1.take 2 =
      [CFCall.describeStacks ("S"),
       CFCall.updateStack ("S") ("T") [] fixedTags] :=
  ⟨deploy_describe_branching_and_tags.1 ⟨[], some ("Throttled"), none⟩
     ("T") ("S") [] ("Throttled") rfl (by decide),
   deploy_describe_branching_and_tags.2.1 ⟨[], none, none⟩ ("T") ("S") []
     rfl rfl rfl,
   deploy_describe_branching_and_tags.2.2
     ⟨[(("S"), ⟨("U"), [], [], StackStatus.AVAILABLE⟩)], none, none⟩
     ("T") ("S") [] ⟨("U"), [], [], StackStatus.AVAILABLE⟩ rfl (by decide)⟩

/-- C4: a bucket-creation request for the reserved default region us-east-1
omits the location constraint, any other region supplies it explicitly, the
two requests are structurally different, and `create_s3_bucket` issues
exactly that request as its first remote call. -/
theorem create_bucket_request_region_asymmetry (bucket_name region : String)
    (h : region ≠ "us-east-1") :
    (createBucketRequest bucket_name
        ("us-east-1")).createBucketConfiguration = none
    ∧ (createBucketRequest bucket_name region).createBucketConfiguration =
        some region
    ∧ createBucketRequest bucket_name region ≠
        createBucketRequest bucket_name ("us-east-1")
    ∧ (∀ remote : S3Remote,
        (create_s3_bucket remote bucket_name region).2.1.head? =
          some (S3Call.createBucket bucket_name (some region))
        ∧ (create_s3_bucket remote bucket_name ("us-east-1")).2.1.head? =
          some (S3Call.createBucket bucket_name none)) := by
  refine ⟨?_, ?_, ?_, ?_⟩
  · simp [createBucketRequest]
  · simp [createBucketRequest, h]
  · simp [createBucketRequest, h]
  · intro remote
    cases hf : remote.createFault with
    | some m =>
        constructor <;> simp [create_s3_bucket, createBucketRequest, hf, h]
    | none =>
        constructor <;> simp [create_s3_bucket, createBucketRequest, hf, h]

/-- Witness for C4 at the concrete region eu-west-1. -/
theorem create_bucket_request_region_asymmetry_witness :
    (createBucketRequest ("b") ("us-east-1")).createBucketConfiguration = none
    ∧ (createBucketRequest ("b") ("eu-west-1")).createBucketConfiguration =
        some ("eu-west-1")
    ∧ createBucketRequest ("b") ("eu-west-1") ≠
        createBucketRequest ("b") ("us-east-1")
    ∧ (∀ remote : S3Remote,
        (create_s3_bucket remote ("b") ("eu-west-1")).2.1.head? =
          some (S3Call.createBucket ("b") (some ("eu-west-1")))
        ∧ (create_s3_bucket remote ("b") ("us-east-1")).2.1.head? =
          some (S3Call.createBucket ("b") none)) :=
  create_bucket_request_region_asymmetry ("b") ("eu-west-1") (by decide)

/-- C8: running the ensure-store step twice creates the bucket at most once —
the second run observes existence and performs no creation and no state
change; the probe classifies a 404 answer as absence (triggering creation),
classifies success as existence (no creation), and exits on any other probe
error code. -/
theorem ensureStore_creates_at_most_once (remote : S3Remote)
    (bucket_name region : String)
    (hh : remote.headFault = none) (hc : remote.createFault = none) :
    (countCreates (ensureStore remote bucket_name region).2.1
       + countCreates (ensureStore (ensureStore remote bucket_name region).1
           bucket_name region).2.1 ≤ 1)
    ∧ countCreates (ensureStore (ensureStore remote bucket_name region).1
        bucket_name region).2.1 = 0
    ∧ (ensureStore (ensureStore remote bucket_name region).1
        bucket_name region).1 = (ensureStore remote bucket_name region).1
    ∧ (alistLookup remote.buckets bucket_name = none →
        countCreates (ensureStore remote bucket_name region).2.1 = 1)
    ∧ (∀ bkt, alistLookup remote.buckets bucket_name = some bkt →
        ensureStore remote bucket_name region =
          (remote, [S3Call.headBucket bucket_name], none))
    ∧ (∀ (r2 : S3Remote) (code : Nat), r2.headFault = some code →
        code ≠ 404 →
        ensureStore r2 bucket_name region =
          (r2, [S3Call.headBucket bucket_name],
           some (("Error checking bucket: ") ++ toString code))) := by
  have hprobe : ∀ (r2 : S3Remote) (code : Nat), r2.headFault = some code →
      code ≠ 404 →
      ensureStore r2 bucket_name region =
        (r2, [S3Call.headBucket bucket_name],
         some (("Error checking bucket: ") ++ toString code)) := by
    intro r2 code h2 h404
    simp [ensureStore, check_s3_bucket_exists, headBucketResp, h2, h404]
  cases hlk : alistLookup remote.buckets bucket_name with
  | none =>
      refine ⟨?_, ?_, ?_, ?_, ?_, hprobe⟩ <;>
        simp [ensureStore, check_s3_bucket_exists, headBucketResp, hh, hc,
          hlk, create_s3_bucket, countCreates, alistLookup_alistSet_self]
  | some bkt =>
      refine ⟨?_, ?_, ?_, ?_, ?_, hprobe⟩ <;>
        simp [ensureStore, check_s3_bucket_exists, headBucketResp, hh, hc,
          hlk, countCreates]

/-- Witness for C8: a fresh remote (one creation then a no-op), an existing
bucket, and a 403 probe failure. -/
theorem ensureStore_creates_at_most_once_witness :
    (countCreates (ensureStore ⟨[], none, none⟩ ("b") ("eu-west-1")).2.1
       + countCreates
           (ensureStore (ensureStore ⟨[], none, none⟩ ("b")
               ("eu-west-1")).1 ("b") ("eu-west-1")).2.1 ≤ 1)
    ∧ countCreates
        (ensureStore (ensureStore ⟨[], none, none⟩ ("b") ("eu-west-1")).1
          ("b") ("eu-west-1")).2.1 = 0
    ∧ (ensureStore (ensureStore ⟨[], none, none⟩ ("b") ("eu-west-1")).1
        ("b") ("eu-west-1")).1 =
      (ensureStore ⟨[], none, none⟩ ("b") ("eu-west-1")).1
    ∧ (alistLookup (S3Remote.mk [] none none).buckets ("b") = none →
        countCreates
          (ensureStore ⟨[], none, none⟩ ("b") ("eu-west-1")).2.1 = 1)
    ∧ (∀ bkt, alistLookup (S3Remote.mk [] none none).buckets ("b") =
          some bkt →
        ensureStore ⟨[], none, none⟩ ("b") ("eu-west-1") =
          (⟨[], none, none⟩, [S3Call.headBucket ("b")], none))
    ∧ (∀ (r2 : S3Remote) (code : Nat), r2.headFault = some code →
        code ≠ 404 →
        ensureStore r2 ("b") ("eu-west-1") =
          (r2, [S3Call.headBucket ("b")],
           some (("Error checking bucket: ") ++ toString code))) :=
  ensureStore_creates_at_most_once ⟨[], none, none⟩ ("b") ("eu-west-1")
    rfl rfl

/-- C6 counterexample: a template file in the `initial` subdirectory of the
infrastructure root is uploaded under `infrastructure/<base name>`, not under
its path relative to the parent of the root — the subdirectory is dropped
from the key, contradicting the claim at this concrete input. -/
theorem upload_key_flattens_counterexample :
    (((["initial"], "network.yaml"), "infrastructure/network.yaml") ∈
        upload_templates_to_s3
          ⟨[[], ["initial"], ["template"]],
           [((["initial"] : List String), "network.yaml")]⟩)
    ∧ ("infrastructure/network.yaml" : String) ≠
        specRelativeKey ((["initial"] : List String), "network.yaml") := by
  constructor
  · decide
  · decide

/-- C6 as amended: every file uploaded by the template-upload step gets the
key `infrastructure/<base name>` — only the single structural prefix is
preserved while the subdirectory structure beneath the root is flattened —
except that `template/dev-environment-template.yaml` is additionally
uploaded under `templates/dev-environment-template.yaml`. -/
theorem upload_key_amended (fs : InfraFS) (f : List String × String)
    (key : String) (h : (f, key) ∈ upload_templates_to_s3 fs) :
    key = ("infrastructure/") ++ f.2
    ∨ (f = devEnvTemplateFile
       ∧ key = "templates/dev-environment-template.yaml") := by
  obtain ⟨fd, fn⟩ := f
  unfold upload_templates_to_s3 at h
  rcases List.mem_append.mp h with h1 | h2
  · left
    unfold yamlUploads at h1
    simp only [List.mem_flatMap, List.mem_map, List.mem_filter] at h1
    obtain ⟨d, _, n, _, heq⟩ := h1
    injection heq with heq1 heq2
    injection heq1 with heq3 heq4
    subst heq3
    subst heq4
    subst heq2
    rfl
  · right
    unfold devEnvTemplateUpload at h2
    split at h2
    · simp only [List.mem_singleton] at h2
      injection h2 with h3 h4
      exact ⟨h3, h4⟩
    · simp at h2

/-- Witness for C6 as amended, at a file sitting directly in the
infrastructure root. -/
theorem upload_key_amended_witness :
    ("infrastructure/base.yaml" : String) =
      ("infrastructure/") ++ ((([] : List String), "base.yaml") :
        List String × String).2
    ∨ (((([] : List String), "base.yaml") : List String × String) =
        devEnvTemplateFile
       ∧ ("infrastructure/base.yaml" : String) =
        "templates/dev-environment-template.yaml") :=
  upload_key_amended
    ⟨[[]], [((([] : List String)), "base.yaml")]⟩
    ((([] : List String)), "base.yaml") ("infrastructure/base.yaml")
    (by decide)

/-- A value found by lookup is a member of the association list. -/
theorem alistLookup_mem {α : Type} (l : List (String × α)) (k : String)
    (v : α) (h : alistLookup l k = some v) : (k, v) ∈ l := by
  induction l with
  | nil => simp [alistLookup] at h
  | cons kv rest ih =>
      obtain ⟨k0, v0⟩ := kv
      by_cases hk : k0 = k
      · subst hk
        simp [alistLookup] at h
        subst h
        exact List.mem_cons_self _ _
      · simp [alistLookup, hk] at h
        exact List.mem_cons_of_mem _ (ih h)

/-- A pattern starting with a character absent from a list never occurs in
that list. -/
theorem containsList_cons_eq_false (c : Char) (pat : List Char)
    (s : List Char) (h : c ∉ s) : containsList (c :: pat) s = false := by
  induction s with
  | nil => rfl
  | cons a as ih =>
      have hca : (c == a) = false := by
        rw [beq_eq_false_iff_ne]
        intro he
        subst he
        exact h (List.mem_cons_self c as)
      have ht : containsList (c :: pat) as = false :=
        ih (fun hm => h (List.mem_cons_of_mem a hm))
      simp [containsList, startsWithList, hca, ht]

/-- A string with no opening brace does not contain the placeholder opening
marker. -/
theorem strContains_openMarker_eq_false (s : String)
    (h : lbraceChar ∉ s.data) : strContains s openMarker = false :=
  containsList_cons_eq_false _ _ _ h

/-- The no-brace test unfolded to list membership. -/
theorem hasBrace_eq_false_iff (s : String) :
    hasBrace s = false ↔ lbraceChar ∉ s.data := by
  constructor
  · intro h hm
    have : hasBrace s = true := by
      unfold hasBrace
      exact List.elem_eq_true_of_mem hm
    rw [h] at this
    cases this
  · intro h
    unfold hasBrace
    cases he : s.data.contains lbraceChar with
    | false => rfl
    | true => exact absurd (List.mem_of_elem_eq_true he) h

/-- resolve succeeds exactly when every (distinct) placeholder token has a
binding. -/
theorem resolve_ok_iff_tokens_bound (b : List (String × String)) :
    ∀ t : List TemplateChunk,
      exceptOk (resolve t b) = true ↔
        ∀ tok ∈ placeholderTokens t, alistLookup b tok ≠ none := by
  intro t
  induction t with
  | nil => simp [resolve, placeholderTokens, exceptOk]
  | cons c rest ih =>
      cases c with
      | lit s0 =>
          cases hr : resolve rest b with
          | ok w =>
              simpa [resolve, placeholderTokens, hr, exceptOk] using ih
          | error e =>
              simpa [resolve, placeholderTokens, hr, exceptOk] using ih
      | placeholder tok =>
          simp only [placeholderTokens]
          cases hl : alistLookup b tok with
          | none =>
              by_cases hmem : tok ∈ placeholderTokens rest
              · rw [if_pos hmem]
                simp only [resolve, hl, exceptOk]
                constructor
                · intro h
                  cases h
                · intro htail
                  exact absurd hl (htail tok hmem)
              · rw [if_neg hmem]
                simp [resolve, hl, exceptOk]
          | some v =>
              by_cases hmem : tok ∈ placeholderTokens rest
              · rw [if_pos hmem]
                cases hr : resolve rest b with
                | ok w =>
                    simpa [resolve, placeholderTokens, hl, hr, exceptOk]
                      using ih
                | error e =>
                    simpa [resolve, placeholderTokens, hl, hr, exceptOk]
                      using ih
              · rw [if_neg hmem]
                cases hr : resolve rest b with
                | ok w =>
                    simpa [resolve, placeholderTokens, hl, hr, exceptOk]
                      using ih
                | error e =>
                    simpa [resolve, placeholderTokens, hl, hr, exceptOk]
                      using ih

/-- The only failure resolve ever reports is `UnresolvedPlaceholder`. -/
theorem resolve_error_eq (b : List (String × String)) :
    ∀ (t : List TemplateChunk) (e : String),
      resolve t b = Except.error e → e = "UnresolvedPlaceholder" := by
  intro t
  induction t with
  | nil =>
      intro e he
      simp [resolve] at he
  | cons c rest ih =>
      intro e he
      cases c with
      | lit s0 =>
          cases hr : resolve rest b with
          | ok w => simp [resolve, hr] at he
          | error e2 =>
              simp [resolve, hr] at he
              subst he
              exact ih e2 hr
      | placeholder tok =>
          cases hl : alistLookup b tok with
          | none =>
              simp [resolve, hl] at he
              exact he.symm
          | some v =>
              cases hr : resolve rest b with
              | ok w => simp [resolve, hl, hr] at he
              | error e2 =>
                  simp [resolve, hl, hr] at he
                  subst he
                  exact ih e2 hr

/-- When the literal text and the binding values contain no opening brace,
neither does any successfully resolved text. -/
theorem resolve_ok_noBrace (b : List (String × String))
    (hval : ∀ kv ∈ b, lbraceChar ∉ (kv.2 : String).data) :
    ∀ t : List TemplateChunk,
      (∀ s, TemplateChunk.lit s ∈ t → lbraceChar ∉ s.data) →
      ∀ s, resolve t b = Except.ok s → lbraceChar ∉ s.data := by
  intro t
  induction t with
  | nil =>
      intro _ s hs
      simp [resolve] at hs
      subst hs
      decide
  | cons c rest ih =>
      intro hlit s hs
      have hlitR : ∀ s1, TemplateChunk.lit s1 ∈ rest → lbraceChar ∉ s1.data :=
        fun s1 h1 => hlit s1 (List.mem_cons_of_mem _ h1)
      cases c with
      | lit s0 =>
          have hlit0 : lbraceChar ∉ s0.data :=
            hlit s0 (List.mem_cons_self _ _)
          cases hr : resolve rest b with
          | ok w =>
              simp [resolve, hr] at hs
              subst hs
              rw [str_data_append]
              intro hmem
              rcases List.mem_append.mp hmem with hm | hm
              · exact hlit0 hm
              · exact ih hlitR w hr hm
          | error e => simp [resolve, hr] at hs
      | placeholder tok =>
          cases hl : alistLookup b tok with
          | none => simp [resolve, hl] at hs
          | some v =>
              have hv : lbraceChar ∉ v.data :=
                hval (tok, v) (alistLookup_mem b tok v hl)
              cases hr : resolve rest b with
              | ok w =>
                  simp [resolve, hl, hr] at hs
                  subst hs
                  rw [str_data_append]
                  intro hmem
                  rcases List.mem_append.mp hmem with hm | hm
                  · exact hv hm
                  · exact ih hlitR w hr hm
              | error e => simp [resolve, hl, hr] at hs

/-- C7 (the Template Resolver is modelled from the spec, no code for it
exists under `src/`): for a template whose literal text and whose binding
values carry no opening brace, resolve succeeds iff every one of its
distinct placeholder tokens has a binding; every failure is
`UnresolvedPlaceholder`; and a successful result never contains the
placeholder opening marker. -/
theorem resolve_success_iff_all_bound (t : List TemplateChunk)
    (b : List (String × String))
    (hlit : ∀ s, TemplateChunk.lit s ∈ t → hasBrace s = false)
    (hval : ∀ kv ∈ b, hasBrace (kv.2 : String) = false) :
    (exceptOk (resolve t b) = true ↔
        ∀ tok ∈ placeholderTokens t, alistLookup b tok ≠ none)
    ∧ (∀ e, resolve t b = Except.error e → e = "UnresolvedPlaceholder")
    ∧ (∀ s, resolve t b = Except.ok s → strContains s openMarker = false) := by
  refine ⟨resolve_ok_iff_tokens_bound b t, resolve_error_eq b t, ?_⟩
  intro s hs
  apply strContains_openMarker_eq_false
  apply resolve_ok_noBrace b ?_ t ?_ s hs
  · intro kv hkv
    exact (hasBrace_eq_false_iff _).mp (hval kv hkv)
  · intro s1 h1
    exact (hasBrace_eq_false_iff _).mp (hlit s1 h1)

/-- Witness for C7 at a concrete two-token template: with both tokens bound
resolve succeeds, and dropping a binding makes it fail with
`UnresolvedPlaceholder`. -/
theorem resolve_success_iff_all_bound_witness :
    exceptOk (resolve
        [TemplateChunk.lit ("a-"), TemplateChunk.placeholder ("X"),
         TemplateChunk.placeholder ("Y")]
        [(("X"), ("vx")), (("Y"), ("vy"))]) = true
    ∧ (∀ e, resolve
        [TemplateChunk.lit ("a-"), TemplateChunk.placeholder ("X"),
         TemplateChunk.placeholder ("Y")]
        [(("X"), ("vx"))] = Except.error e → e = "UnresolvedPlaceholder") :=
  ⟨(resolve_success_iff_all_bound
      [TemplateChunk.lit ("a-"), TemplateChunk.placeholder ("X"),
       TemplateChunk.placeholder ("Y")]
      [(("X"), ("vx")), (("Y"), ("vy"))]
      (by intro s hs; simp at hs; subst hs; decide)
      (by decide)).1.mpr (by decide),
   (resolve_success_iff_all_bound
      [TemplateChunk.lit ("a-"), TemplateChunk.placeholder ("X"),
       TemplateChunk.placeholder ("Y")]
      [(("X"), ("vx"))]
      (by intro s hs; simp at hs; subst hs; decide)
      (by decide)).2.1⟩

/-- C2 counterexample: for a provisioned product whose status check returns
the non-terminal UNDER_CHANGE, the status command still issues exactly one
remote query (and no delay call) — it does not re-poll at all, contradicting
the claimed indefinite 5-unit poll loop at this concrete input. -/
theorem developer_status_single_poll_counterexample :
    (developer_status
        ⟨[(("p"), ⟨some ("id-1"), ("UNDER_CHANGE"), none⟩)]⟩ ("p")).2 =
      StatusResult.reported ("UNDER_CHANGE")
    ∧ (developer_status
        ⟨[(("p"), ⟨some ("id-1"), ("UNDER_CHANGE"), none⟩)]⟩ ("p")).1 =
      [SCCall.describeProvisionedProduct ("p")]
    ∧ ¬ (2 ≤ (developer_status
        ⟨[(("p"), ⟨some ("id-1"), ("UNDER_CHANGE"), none⟩)]⟩ ("p")).1.length)
    ∧ SCCall.sleep 5 ∉ (developer_status
        ⟨[(("p"), ⟨some ("id-1"), ("UNDER_CHANGE"), none⟩)]⟩ ("p")).1 := by
  refine ⟨by decide, by decide, by decide, by decide⟩

/-- C2 as amended: the status command performs a single status query with no
delay and reports the remotely observed status as is; in particular a
product already AVAILABLE is reported as terminal success by that one
query, with no additional polling. -/
theorem developer_status_single_query_reports (remote : SCRemote)
    (name : String) (p : SCProduct)
    (hp : alistLookup remote.provisionedProducts name = some p) :
    developer_status remote name =
      ([SCCall.describeProvisionedProduct name],
       StatusResult.reported p.status) := by
  simp [developer_status, hp]

/-- Witness for C2 as amended, at a product already AVAILABLE. -/
theorem developer_status_single_query_reports_witness :
    developer_status
        ⟨[(("q"), ⟨some ("id-2"), ("AVAILABLE"), none⟩)]⟩ ("q") =
      ([SCCall.describeProvisionedProduct ("q")],
       StatusResult.reported ("AVAILABLE")) :=
  developer_status_single_query_reports
    ⟨[(("q"), ⟨some ("id-2"), ("AVAILABLE"), none⟩)]⟩ ("q")
    ⟨some ("id-2"), ("AVAILABLE"), none⟩ (by decide)

/-- C9: when the user declines the confirmation prompt of a termination
(without --force), the command returns gracefully: no terminate call is
issued, the remote state is unchanged, and the outcome is a cancellation,
not a failure. -/
theorem terminate_declined_no_call (remote : SCRemote) (name : String)
    (p : SCProduct)
    (hp : alistLookup remote.provisionedProducts name = some p)
    (hid : falsyId p.id = false) :
    developer_terminate remote name false false =
      (remote, [SCCall.describeProvisionedProduct name],
       TermResult.cancelled) := by
  simp [developer_terminate, hp, hid]

/-- Witness for C9 at a concrete provisioned product. -/
theorem terminate_declined_no_call_witness :
    developer_terminate
        ⟨[(("p"), ⟨some ("id-1"), ("AVAILABLE"), none⟩)]⟩ ("p")
        false false =
      (⟨[(("p"), ⟨some ("id-1"), ("AVAILABLE"), none⟩)]⟩,
       [SCCall.describeProvisionedProduct ("p")], TermResult.cancelled) :=
  terminate_declined_no_call
    ⟨[(("p"), ⟨some ("id-1"), ("AVAILABLE"), none⟩)]⟩ ("p")
    ⟨some ("id-1"), ("AVAILABLE"), none⟩ (by decide) (by decide)

/-- C10: when the configuration holds no region (absent or empty), region
resolution returns the reserved default us-east-1 instead of failing, so a
command without a --region flag proceeds against us-east-1 — the very region
whose bucket-creation request omits the location constraint. -/
theorem region_default_us_east_1 (bucket_name : String)
    (cfg : Option String) (h : cfg = none ∨ cfg = some ("")) :
    get_aws_region cfg = "us-east-1"
    ∧ resolveRegionOption none cfg = "us-east-1"
    ∧ (createBucketRequest bucket_name
        (resolveRegionOption none cfg)).createBucketConfiguration = none := by
  have he : ("" : String).isEmpty = true := rfl
  rcases h with h | h <;> subst h <;>
    simp [get_aws_region, resolveRegionOption, createBucketRequest, he]

/-- Witness for C10 with an absent configured region. -/
theorem region_default_us_east_1_witness :
    get_aws_region none = "us-east-1"
    ∧ resolveRegionOption none none = "us-east-1"
    ∧ (createBucketRequest ("b")
        (resolveRegionOption none none)).createBucketConfiguration = none :=
  region_default_us_east_1 ("b") none (Or.inl rfl)
